import Mathlib

/-!
Verification of the multi-tenant isolation core of qtable-vendure.

The definitions below are a shallow embedding of the TypeScript sources:
  - entities/tenant-status.enum.ts              (TenantStatus)
  - services/tenant.service.ts                  (changeStatus, validateStatusTransition)
  - services/tenant-resolution.service.ts       (resolve, invalidate, invalidateAll)
  - middleware/tenant-context.middleware.ts     (TenantContextMiddleware.use)
  - services/tenant-provisioning.service.ts     (TenantGuard.canActivate)
  - guards/default-channel.guard.ts             (DefaultChannelGuard.canActivate)
  - api/tenant-admin.resolver.ts, api/tenant-shop.resolver.ts

Asynchronous service methods are modelled as pure functions with explicit
state passing (the in-memory resolver cache, the tenant table, emitted
events and audit entries are threaded as values). JavaScript truthiness of
optional strings is modelled explicitly where the source relies on it.
-/

namespace QTable

/-- Tenant lifecycle statuses, from entities/tenant-status.enum.ts; the PURGED
member is referenced by tenant.service.ts and the purge job. Each member's
string value (used in error messages) equals its name. -/
inductive TenantStatus where
  | REQUESTED
  | PROVISIONING
  | TRIAL
  | ACTIVE
  | SUSPENDED
  | PENDING_DELETION
  | DELETED
  | PURGED
deriving DecidableEq, Repr, Fintype

/-- String value of a status, as interpolated into error messages. -/
def TenantStatus.str : TenantStatus → String
  | .REQUESTED => "REQUESTED"
  | .PROVISIONING => "PROVISIONING"
  | .TRIAL => "TRIAL"
  | .ACTIVE => "ACTIVE"
  | .SUSPENDED => "SUSPENDED"
  | .PENDING_DELETION => "PENDING_DELETION"
  | .DELETED => "DELETED"
  | .PURGED => "PURGED"

/-- The transition table of TenantService.validateStatusTransition
(tenant.service.ts, the "allowed" record). -/
def allowedTransitions : TenantStatus → List TenantStatus
  | .REQUESTED => [.PROVISIONING]
  | .PROVISIONING => [.TRIAL, .ACTIVE]
  | .TRIAL => [.ACTIVE, .SUSPENDED, .PENDING_DELETION]
  | .ACTIVE => [.SUSPENDED, .PENDING_DELETION]
  | .SUSPENDED => [.ACTIVE, .PENDING_DELETION]
  | .PENDING_DELETION => [.ACTIVE, .DELETED]
  | .DELETED => [.PURGED]
  | .PURGED => []

/-- The UserInputError message thrown on an invalid transition:
"Invalid status transition: F → T. Allowed: ..." where the allowed list is
joined with ", " and an empty join falls back to "none" (the JS expression
allowed[from].join falling back through the or-operator). -/
def transitionErrorMsg (f t : TenantStatus) : String :=
  let joined := String.intercalate ", " ((allowedTransitions f).map TenantStatus.str)
  "Invalid status transition: " ++ f.str ++ " → " ++ t.str ++ ". Allowed: " ++
    (if joined = "" then "none" else joined)

/-- TenantService.validateStatusTransition: ok when the target is in the
allowed list for the source status, otherwise the UserInputError. -/
def validateStatusTransition (f t : TenantStatus) : Except String Unit :=
  if t ∈ allowedTransitions f then Except.ok () else Except.error (transitionErrorMsg f t)

/-- A Tenant row joined with its Channel (tenant.entity.ts plus the channel
relation); timestamps are naturals (milliseconds), absent values are none. -/
structure TenantEnt where
  id : Nat
  name : String
  slug : String
  status : TenantStatus
  channelId : Nat
  channelToken : String
  plan : String
  suspendedAt : Option Nat
  deletedAt : Option Nat
deriving DecidableEq, Repr

/-- Events published on the EventBus by TenantService.changeStatus. -/
inductive TenantEvent where
  | statusChanged (tenantId : Nat) (fromStatus toStatus : TenantStatus)
  | suspended (tenantId : Nat)
  | deleted (tenantId : Nat)
deriving DecidableEq, Repr

/-- Repository findOne by id (TenantService.findById). -/
def findById (tenants : List TenantEnt) (id : Nat) : Option TenantEnt :=
  tenants.find? (fun t => t.id == id)

/-- Repository findOne by channelId (TenantService.findByChannelId). -/
def findByChannelId (tenants : List TenantEnt) (channelId : Nat) : Option TenantEnt :=
  tenants.find? (fun t => t.channelId == channelId)

/-- Repository save of an updated entity: replaces the row with the same id. -/
def saveTenant (tenants : List TenantEnt) (t : TenantEnt) : List TenantEnt :=
  tenants.map (fun u => if u.id == t.id then t else u)

/-- Result of a changeStatus call: the returned value (or thrown error), the
tenant table afterwards, and the events published on the EventBus. -/
structure ChangeStatusResult where
  result : Except String TenantEnt
  tenants : List TenantEnt
  events : List TenantEvent
deriving Repr

/-- TenantService.changeStatus: find the tenant, validate the transition,
set status and the status-specific timestamps, save, publish events.
An exception (not-found or invalid transition) is thrown before any write,
so on error the table is unchanged and no event is published. -/
def changeStatus (now : Nat) (tenants : List TenantEnt) (id : Nat)
    (newStatus : TenantStatus) : ChangeStatusResult :=
  match findById tenants id with
  | none =>
    { result := Except.error ("Tenant with ID \"" ++ toString id ++ "\" not found"),
      tenants := tenants, events := [] }
  | some tenant =>
    match validateStatusTransition tenant.status newStatus with
    | Except.error e => { result := Except.error e, tenants := tenants, events := [] }
    | Except.ok _ =>
      let oldStatus := tenant.status
      let t1 := { tenant with status := newStatus }
      let t2 :=
        if newStatus = TenantStatus.SUSPENDED then { t1 with suspendedAt := some now }
        else if newStatus = TenantStatus.PENDING_DELETION then { t1 with deletedAt := some now }
        else if newStatus = TenantStatus.ACTIVE ∨ newStatus = TenantStatus.TRIAL then
          { t1 with suspendedAt := none, deletedAt := none }
        else t1
      let evs :=
        [TenantEvent.statusChanged t2.id oldStatus newStatus] ++
          (if newStatus = TenantStatus.SUSPENDED then [TenantEvent.suspended t2.id]
           else if newStatus = TenantStatus.DELETED then [TenantEvent.deleted t2.id]
           else [])
      { result := Except.ok t2, tenants := saveTenant tenants t2, events := evs }

/-- The cached resolution value (tenant-resolution.service.ts,
interface TenantResolutionResult). -/
structure TenantResolutionResult where
  channelToken : String
  tenantId : Nat
  tenantSlug : String
  tenantStatus : TenantStatus
deriving DecidableEq, Repr

/-- One cache entry: a resolution result with its expiry instant. -/
structure CacheEntry where
  result : TenantResolutionResult
  expiresAt : Nat
deriving DecidableEq, Repr

/-- The in-memory Map of TenantResolutionService, domain to entry. -/
abbrev ResolverCache := List (String × CacheEntry)

/-- Map.get on the cache. -/
def cacheGet (c : ResolverCache) (k : String) : Option CacheEntry :=
  (c.find? (fun p => p.fst == k)).map Prod.snd

/-- Map.delete on the cache. -/
def cacheDelete (c : ResolverCache) (k : String) : ResolverCache :=
  c.filter (fun p => p.fst != k)

/-- Map.set on the cache: the key now maps to the given entry. -/
def cacheSet (c : ResolverCache) (k : String) (e : CacheEntry) : ResolverCache :=
  (k, e) :: cacheDelete c k

/-- The cache TTL of TenantResolutionService (60 000 ms). -/
def cacheTtlMs : Nat := 60000

/-- JavaScript toLowerCase, character by character. -/
def strToLower (s : String) : String :=
  String.mk (s.data.map Char.toLower)

/-- Hostname normalization used by both the resolution service and the
middleware: take the part before the first colon (the head of the colon
split), lowercase it. -/
def normalizeDomain (d : String) : String :=
  strToLower (String.mk (d.data.takeWhile (fun c => c != ':')))

/-- The database query of TenantResolutionService.resolve: a findOne on
TenantDomain with the tenant and tenant.channel relations joined. A row
whose tenant or channel relation is missing behaves as no row (the source
guards on the absent relation and returns undefined). -/
def dbLookup (db : List (String × TenantEnt)) (nd : String) : Option TenantEnt :=
  (db.find? (fun p => p.fst == nd)).map Prod.snd

/-- The TenantDomain join: each (domain, tenantId) row paired with its
tenant, rows without a matching tenant dropped. -/
def directoryOf (domains : List (String × Nat)) (tenants : List TenantEnt) :
    List (String × TenantEnt) :=
  domains.filterMap (fun p => (findById tenants p.snd).map (fun t => (p.fst, t)))

/-- The cache-miss path of TenantResolutionService.resolve: query the
database; no match deletes any cache entry for the domain and yields none;
a match with a non-operational status (not TRIAL and not ACTIVE) yields
none with the cache untouched; otherwise build the result and cache it
with a fresh expiry. -/
def resolveFresh (now : Nat) (db : List (String × TenantEnt)) (cache : ResolverCache)
    (nd : String) : Option TenantResolutionResult × ResolverCache :=
  match dbLookup db nd with
  | none => (none, cacheDelete cache nd)
  | some tenant =>
    if tenant.status ≠ TenantStatus.TRIAL ∧ tenant.status ≠ TenantStatus.ACTIVE then
      (none, cache)
    else
      let r : TenantResolutionResult :=
        { channelToken := tenant.channelToken, tenantId := tenant.id,
          tenantSlug := tenant.slug, tenantStatus := tenant.status }
      (some r, cacheSet cache nd { result := r, expiresAt := now + cacheTtlMs })

/-- TenantResolutionService.resolve: normalize the domain, serve a cache
entry that is fresher than its expiry, otherwise fall to the database. -/
def resolve (now : Nat) (db : List (String × TenantEnt)) (cache : ResolverCache)
    (domain : String) : Option TenantResolutionResult × ResolverCache :=
  let nd := normalizeDomain domain
  match cacheGet cache nd with
  | some e => if now < e.expiresAt then (some e.result, cache) else resolveFresh now db cache nd
  | none => resolveFresh now db cache nd

/-- TenantResolutionService.invalidate: delete the lowercased domain key. -/
def invalidate (cache : ResolverCache) (domain : String) : ResolverCache :=
  cacheDelete cache (strToLower domain)

/-- TenantResolutionService.invalidateAll: clear the cache. -/
def invalidateAll (_cache : ResolverCache) : ResolverCache := []

/-- Tenant metadata attached to the request by the middleware (the __tenant
object; the TenantMeta interface of TenantGuard lists channelId as
optional and the middleware never sets it). -/
structure TenantMeta where
  id : Nat
  slug : String
  status : TenantStatus
  channelToken : String
  channelId : Option Nat
deriving DecidableEq, Repr

/-- The inbound request as the middleware sees it: the two host headers and
the client-supplied vendure-token header, each possibly absent. -/
structure MwRequest where
  host : Option String
  xForwardedHost : Option String
  vendureToken : Option String
deriving DecidableEq, Repr

/-- Outcome of TenantResolutionService.resolve as consumed by the
middleware: a result, undefined, or a thrown error. -/
inductive ResolveOutcome where
  | ok (r : TenantResolutionResult)
  | notFound
  | err
deriving DecidableEq, Repr

/-- What the middleware does with the response: call next, or reject with
an HTTP status. The source only ever calls next. -/
inductive MwAction where
  | next
  | reject (httpStatus : Nat)
deriving DecidableEq, Repr

/-- Observable outcome of the middleware on one request: the final value of
the vendure-token header, the tenant metadata attached to the request, and
the response action taken. -/
structure MwOutcome where
  vendureToken : Option String
  tenantMeta : Option TenantMeta
  action : MwAction
deriving DecidableEq, Repr

/-- The skipDomains set of TenantContextMiddleware. -/
def skipDomains : List String := ["localhost", "127.0.0.1", "0.0.0.0"]

/-- JavaScript truthiness of an optional string header value. -/
def truthy : Option String → Bool
  | none => false
  | some s => ¬ s == ""

/-- The or-chain over the host and x-forwarded-host headers with an empty
string fallback. -/
def firstTruthy (a b : Option String) : String :=
  if truthy a then a.getD "" else if truthy b then b.getD "" else ""

/-- The domain the middleware computes from the request. -/
def requestDomain (req : MwRequest) : String :=
  normalizeDomain (firstTruthy req.host req.xForwardedHost)

/-- TenantContextMiddleware.use. The middleware skips resolution entirely
when the domain is in skipDomains or the vendure-token header is already
truthy (the source comments this as allowing a manual override for the
admin API). On a resolution it overwrites the header and attaches the
tenant metadata; on undefined or on a thrown error it calls next with the
request unchanged. It never writes an audit entry and never rejects. -/
def middlewareUse (req : MwRequest) (resolver : String → ResolveOutcome) : MwOutcome :=
  let domain := requestDomain req
  if skipDomains.contains domain ∨ truthy req.vendureToken then
    { vendureToken := req.vendureToken, tenantMeta := none, action := MwAction.next }
  else
    match resolver domain with
    | ResolveOutcome.ok r =>
      { vendureToken := some r.channelToken,
        tenantMeta := some { id := r.tenantId, slug := r.tenantSlug,
                             status := r.tenantStatus, channelToken := r.channelToken,
                             channelId := none },
        action := MwAction.next }
    | ResolveOutcome.notFound =>
      { vendureToken := req.vendureToken, tenantMeta := none, action := MwAction.next }
    | ResolveOutcome.err =>
      { vendureToken := req.vendureToken, tenantMeta := none, action := MwAction.next }

/-- NestJS execution-context type as tested by both guards. -/
inductive CtxType where
  | graphql
  | http
deriving DecidableEq, Repr

/-- Vendure API type of the request context. -/
inductive ApiType where
  | shop
  | admin
deriving DecidableEq, Repr

/-- The Vendure permissions relevant to the guards. -/
inductive Permission where
  | Public
  | Authenticated
  | SuperAdmin
  | Other
deriving DecidableEq, Repr

/-- The authenticated RequestContext as the guards consume it. -/
structure ReqCtx where
  apiType : ApiType
  channelId : Nat
  activeUserId : Option Nat
  userPermissions : List Permission
deriving DecidableEq, Repr

/-- One audit entry written through AuditService.log. -/
structure AuditEntry where
  action : String
  severity : String
  tenantId : Option Nat
  metadata : List (String × String)
deriving DecidableEq, Repr

/-- Outcome of a guard's canActivate: whether the request is allowed (false
means a ForbiddenError was thrown) and the audit entries written. -/
structure GuardOutcome where
  allowed : Bool
  audits : List AuditEntry
deriving DecidableEq, Repr

/-- The handler-name verbs treated as mutations by TenantGuard. -/
def mutationVerbs : List String := ["create", "update", "delete", "add", "remove", "set"]

/-- The JavaScript startsWith test, on the character lists of the two
strings. -/
def strStartsWith (s p : String) : Bool :=
  p.data.isPrefixOf s.data

/-- TenantGuard's isMutation test: handler name starts with one of the verbs. -/
def isMutationHandler (name : String) : Bool :=
  mutationVerbs.any (fun v => strStartsWith name v)

/-- TenantGuard.canActivate (tenant-provisioning.service.ts source part):
non-GraphQL contexts pass; missing tenant metadata passes; a missing
RequestContext passes; a SUSPENDED tenant on the shop API with a
mutation-named handler is rejected with a WARN audit entry carrying the
handler name and the tenant slug; everything else passes. The guard never
compares the context channel with the tenant metadata. -/
def tenantGuardCanActivate (ctxType : CtxType) (tenant : Option TenantMeta)
    (rc : Option ReqCtx) (handlerName : String) : GuardOutcome :=
  if ctxType ≠ CtxType.graphql then { allowed := true, audits := [] }
  else
    match tenant with
    | none => { allowed := true, audits := [] }
    | some t =>
      match rc with
      | none => { allowed := true, audits := [] }
      | some c =>
        if t.status = TenantStatus.SUSPENDED ∧ c.apiType = ApiType.shop ∧
            isMutationHandler handlerName then
          { allowed := false,
            audits := [{ action := "SUSPENDED_TENANT_MUTATION_BLOCKED", severity := "WARN",
                         tenantId := some t.id,
                         metadata := [("mutation", handlerName), ("slug", t.slug)] }] }
        else { allowed := true, audits := [] }

/-- Vendure's userHasPermissions on the active channel, as used by the
default-channel guard with the single-element SuperAdmin list. -/
def userHasPermissions (c : ReqCtx) (ps : List Permission) : Bool :=
  ps.all (fun p => c.userPermissions.contains p)

/-- DefaultChannelGuard.canActivate: non-GraphQL contexts pass; handlers
with no permissions metadata, or whose metadata includes Public, pass; a
missing RequestContext passes; an unauthenticated context passes; an
authenticated context bound to the default channel without the SuperAdmin
permission is rejected with a CRITICAL audit entry; everything else
passes. -/
def defaultChannelGuardCanActivate (ctxType : CtxType)
    (handlerPermissions : Option (List Permission)) (rc : Option ReqCtx)
    (defaultChannelId : Nat) : GuardOutcome :=
  if ctxType ≠ CtxType.graphql then { allowed := true, audits := [] }
  else if handlerPermissions.isNone ∨ Permission.Public ∈ handlerPermissions.getD [] then
    { allowed := true, audits := [] }
  else
    match rc with
    | none => { allowed := true, audits := [] }
    | some c =>
      match c.activeUserId with
      | none => { allowed := true, audits := [] }
      | some userId =>
        if c.channelId = defaultChannelId ∧ ¬ userHasPermissions c [Permission.SuperAdmin] then
          { allowed := false,
            audits := [{ action := "DEFAULT_CHANNEL_ACCESS_BLOCKED", severity := "CRITICAL",
                         tenantId := none, metadata := [("userId", toString userId)] }] }
        else { allowed := true, audits := [] }

/-- Errors surfaced by the resolver operations. -/
inductive ResolverError where
  | forbidden
  | userInput (msg : String)
deriving DecidableEq, Repr

/-- TenantAdminResolver.tenant: a findById with no scope filtering; the
caller's RequestContext is passed through to the repository but its
channel never constrains the lookup. -/
def adminTenantQuery (_ctx : ReqCtx) (tenants : List TenantEnt) (id : Nat) :
    Option TenantEnt :=
  findById tenants id

/-- Assoc-document merge with the spread semantics of the update method:
keys of the second document override the first. -/
def configMerge (a b : List (String × String)) : List (String × String) :=
  a.filter (fun p => ¬ b.any (fun q => q.fst == p.fst)) ++ b

/-- A tenant row together with its open config document, for the update
operations (the other operations do not read the config). -/
structure TenantRow where
  ent : TenantEnt
  config : List (String × String)
deriving DecidableEq, Repr

/-- TenantService.update: find by id (UserInputError when absent), apply
the provided name, plan and config changes, save. -/
def tenantServiceUpdate (tenants : List TenantRow) (id : Nat) (name plan : Option String)
    (config : Option (List (String × String))) : Except ResolverError (TenantRow × List TenantRow) :=
  match tenants.find? (fun t => t.ent.id == id) with
  | none => Except.error (ResolverError.userInput
      ("Tenant with ID \"" ++ toString id ++ "\" not found"))
  | some t =>
    let e1 := match name with | some n => { t.ent with name := n } | none => t.ent
    let e2 := match plan with | some p => { e1 with plan := p } | none => e1
    let cfg := match config with | some c => configMerge t.config c | none => t.config
    let updated : TenantRow := { ent := e2, config := cfg }
    Except.ok (updated, tenants.map (fun u => if u.ent.id == updated.ent.id then updated else u))

/-- TenantShopResolver.updateMyTenant: look the tenant up by the caller's
own channel; when the channel has no tenant, throw ForbiddenError;
otherwise delegate to TenantService.update on that tenant's id. -/
def updateMyTenant (ctx : ReqCtx) (tenants : List TenantRow) (name : Option String)
    (config : Option (List (String × String))) : Except ResolverError (TenantRow × List TenantRow) :=
  match tenants.find? (fun t => t.ent.channelId == ctx.channelId) with
  | none => Except.error ResolverError.forbidden
  | some t => tenantServiceUpdate tenants t.ent.id name none config

instance {α β : Type} [DecidableEq α] [DecidableEq β] : DecidableEq (Except α β) := fun a b =>
  match a, b with
  | Except.ok x, Except.ok y =>
    if h : x = y then isTrue (by rw [h]) else isFalse (by simp [h])
  | Except.ok _, Except.error _ => isFalse (by simp)
  | Except.error _, Except.ok _ => isFalse (by simp)
  | Except.error x, Except.error y =>
    if h : x = y then isTrue (by rw [h]) else isFalse (by simp [h])

/-- The transition table exactly as §4.2 of the spec lists it, as a set of
(from, to) pairs. -/
def specTransitionPairs : List (TenantStatus × TenantStatus) :=
  [(.REQUESTED, .PROVISIONING),
   (.PROVISIONING, .TRIAL), (.PROVISIONING, .ACTIVE),
   (.TRIAL, .ACTIVE), (.TRIAL, .SUSPENDED), (.TRIAL, .PENDING_DELETION),
   (.ACTIVE, .SUSPENDED), (.ACTIVE, .PENDING_DELETION),
   (.SUSPENDED, .ACTIVE), (.SUSPENDED, .PENDING_DELETION),
   (.PENDING_DELETION, .ACTIVE), (.PENDING_DELETION, .DELETED),
   (.DELETED, .PURGED)]

/-- The validator accepts exactly the pairs of the spec table. -/
lemma validate_iff_mem (f t : TenantStatus) :
    (validateStatusTransition f t = Except.ok ()) ↔ (f, t) ∈ specTransitionPairs := by
  revert f t; decide

/-- On a pair outside the table the validator throws the message naming the
pair and the allowed set. -/
lemma validate_err_of_not_mem (f t : TenantStatus) :
    (f, t) ∉ specTransitionPairs →
    validateStatusTransition f t = Except.error (transitionErrorMsg f t) := by
  revert f t; decide

/-- A sample active tenant used by several concrete evaluations. -/
def alphaTenant : TenantEnt :=
  { id := 1, name := "Alpha", slug := "alpha", status := TenantStatus.ACTIVE,
    channelId := 10, channelToken := "tenant-alpha-tok", plan := "trial",
    suspendedAt := none, deletedAt := none }

/-- A sample second tenant in a different data scope. -/
def betaTenant : TenantEnt :=
  { id := 2, name := "Beta", slug := "beta", status := TenantStatus.ACTIVE,
    channelId := 20, channelToken := "tenant-beta-tok", plan := "trial",
    suspendedAt := none, deletedAt := none }

/-- A sample suspended tenant. -/
def susTenant : TenantEnt :=
  { id := 3, name := "Sus", slug := "sus", status := TenantStatus.SUSPENDED,
    channelId := 30, channelToken := "tenant-sus-tok", plan := "trial",
    suspendedAt := some 1, deletedAt := none }

/-- C6: changeStatus succeeds exactly on the pairs of the §4.2 table; every
other pair yields the validation error naming the invalid from → to pair
and the allowed target set (for the spec's own test pair SUSPENDED → TRIAL
the message lists ACTIVE, PENDING_DELETION), and on such an error the
tenant table is unchanged and no event is published. -/
theorem C6_transition_table :
    ∀ (f t : TenantStatus),
      ((validateStatusTransition f t = Except.ok ()) ↔ (f, t) ∈ specTransitionPairs) ∧
      ((f, t) ∉ specTransitionPairs →
        validateStatusTransition f t = Except.error (transitionErrorMsg f t)) ∧
      (validateStatusTransition TenantStatus.SUSPENDED TenantStatus.TRIAL =
        Except.error
          "Invalid status transition: SUSPENDED → TRIAL. Allowed: ACTIVE, PENDING_DELETION") ∧
      (∀ (now : Nat) (tenants : List TenantEnt) (id : Nat) (u : TenantEnt),
        findById tenants id = some u → u.status = f → (f, t) ∉ specTransitionPairs →
        (changeStatus now tenants id t).tenants = tenants ∧
        (changeStatus now tenants id t).events = [] ∧
        (changeStatus now tenants id t).result = Except.error (transitionErrorMsg f t)) := by
  intro f t
  refine ⟨validate_iff_mem f t, validate_err_of_not_mem f t, by decide, ?_⟩
  intro now tenants id u hfind hstat hnot
  have herr : validateStatusTransition u.status t = Except.error (transitionErrorMsg f t) := by
    rw [hstat]
    exact validate_err_of_not_mem f t hnot
  simp [changeStatus, hfind, herr]

/-- Witness for C6 at the spec's own test pair: a suspended tenant asked to
go back to TRIAL is refused, nothing is written, the message is exact. -/
theorem C6_transition_table_witness :
    (changeStatus 5 [susTenant] 3 TenantStatus.TRIAL).tenants = [susTenant] ∧
    (changeStatus 5 [susTenant] 3 TenantStatus.TRIAL).events = [] ∧
    (changeStatus 5 [susTenant] 3 TenantStatus.TRIAL).result =
      Except.error (transitionErrorMsg TenantStatus.SUSPENDED TenantStatus.TRIAL) :=
  (C6_transition_table TenantStatus.SUSPENDED TenantStatus.TRIAL).2.2.2 5 [susTenant] 3
    susTenant (by decide) (by decide) (by decide)

/-- C10: on any non-GraphQL execution context both guards return true at
once, performing no check and writing no audit entry. -/
theorem C10_non_graphql :
    ∀ (ct : CtxType), ct ≠ CtxType.graphql →
      ∀ (tenant : Option TenantMeta) (rc : Option ReqCtx) (handlerName : String)
        (ps : Option (List Permission)) (dcid : Nat),
        tenantGuardCanActivate ct tenant rc handlerName = { allowed := true, audits := [] } ∧
        defaultChannelGuardCanActivate ct ps rc dcid = { allowed := true, audits := [] } := by
  intro ct hct tenant rc handlerName ps dcid
  constructor
  · simp [tenantGuardCanActivate, hct]
  · simp [defaultChannelGuardCanActivate, hct]

/-- Witness for C10 on an HTTP (REST) execution context. -/
theorem C10_non_graphql_witness :
    tenantGuardCanActivate CtxType.http none none "updateProduct" =
      { allowed := true, audits := [] } ∧
    defaultChannelGuardCanActivate CtxType.http none none 1 =
      { allowed := true, audits := [] } :=
  C10_non_graphql CtxType.http (by decide) none none "updateProduct" none 1

/-- Tenant metadata as the middleware attaches it for the alpha tenant. -/
def alphaMeta : TenantMeta :=
  { id := 1, slug := "alpha", status := TenantStatus.ACTIVE,
    channelToken := "tenant-alpha-tok", channelId := none }

/-- An authenticated shop-API context bound to a channel that is not the
alpha tenant's channel 10. -/
def mismatchedCtx : ReqCtx :=
  { apiType := ApiType.shop, channelId := 99, activeUserId := some 42,
    userPermissions := [Permission.Authenticated] }

/-- C3 (code bug): TenantGuard.canActivate never compares the authenticated
principal's channel with the tenant metadata, although its own doc comment
says it verifies that match. At a request whose context is bound to
channel 99 while the resolved tenant owns channel 10, the guard returns
true with no audit entry instead of rejecting. -/
theorem C3_code_behavior :
    tenantGuardCanActivate CtxType.graphql (some alphaMeta) (some mismatchedCtx) "activeOrder" =
      { allowed := true, audits := [] } ∧
    alphaMeta.channelToken = alphaTenant.channelToken ∧
    mismatchedCtx.channelId ≠ alphaTenant.channelId := by
  refine ⟨by decide, by decide, by decide⟩

/-- C7: for a request carrying Stage A tenant metadata with status
SUSPENDED and an authenticated request context on the tenant-facing (shop)
API, TenantGuard rejects every handler whose name starts with create,
update, delete, add, remove or set, writing one WARN audit entry with the
operation name and the tenant slug, and allows every other handler. -/
theorem C7_suspended_guard :
    ∀ (t : TenantMeta) (c : ReqCtx) (handlerName : String),
      t.status = TenantStatus.SUSPENDED → c.apiType = ApiType.shop →
      ((isMutationHandler handlerName = true →
        tenantGuardCanActivate CtxType.graphql (some t) (some c) handlerName =
          { allowed := false,
            audits := [{ action := "SUSPENDED_TENANT_MUTATION_BLOCKED", severity := "WARN",
                         tenantId := some t.id,
                         metadata := [("mutation", handlerName), ("slug", t.slug)] }] }) ∧
       (isMutationHandler handlerName = false →
        tenantGuardCanActivate CtxType.graphql (some t) (some c) handlerName =
          { allowed := true, audits := [] })) := by
  intro t c handlerName hstat hapi
  constructor
  · intro hm
    simp [tenantGuardCanActivate, hstat, hapi, hm]
  · intro hm
    simp [tenantGuardCanActivate, hstat, hapi, hm]

/-- Tenant metadata of a suspended tenant, as Stage A would attach it. -/
def susMeta : TenantMeta :=
  { id := 3, slug := "sus", status := TenantStatus.SUSPENDED,
    channelToken := "tenant-sus-tok", channelId := none }

/-- An authenticated shop-API request context on the suspended tenant's
channel. -/
def susShopCtx : ReqCtx :=
  { apiType := ApiType.shop, channelId := 30, activeUserId := some 42,
    userPermissions := [Permission.Authenticated] }

/-- Witness for C7: on the suspended tenant the mutation updateCustomer is
rejected and audited, the read activeOrder passes. -/
theorem C7_suspended_guard_witness :
    tenantGuardCanActivate CtxType.graphql (some susMeta) (some susShopCtx) "updateCustomer" =
      { allowed := false,
        audits := [{ action := "SUSPENDED_TENANT_MUTATION_BLOCKED", severity := "WARN",
                     tenantId := some 3,
                     metadata := [("mutation", "updateCustomer"), ("slug", "sus")] }] } ∧
    tenantGuardCanActivate CtxType.graphql (some susMeta) (some susShopCtx) "activeOrder" =
      { allowed := true, audits := [] } :=
  ⟨(C7_suspended_guard susMeta susShopCtx "updateCustomer" rfl rfl).1 (by decide),
   (C7_suspended_guard susMeta susShopCtx "activeOrder" rfl rfl).2 (by decide)⟩

/-- C8: an authenticated principal without the SuperAdmin permission acting
on a non-public operation while bound to the default channel is rejected
by DefaultChannelGuard with one CRITICAL audit entry; operations whose
permission metadata includes Public pass unconditionally, and so do
requests with no authenticated user. -/
theorem C8_default_channel_guard :
    ∀ (ps : List Permission) (c : ReqCtx) (uid : Nat) (dcid : Nat),
      (Permission.Public ∉ ps → c.activeUserId = some uid → c.channelId = dcid →
        Permission.SuperAdmin ∉ c.userPermissions →
        defaultChannelGuardCanActivate CtxType.graphql (some ps) (some c) dcid =
          { allowed := false,
            audits := [{ action := "DEFAULT_CHANNEL_ACCESS_BLOCKED", severity := "CRITICAL",
                         tenantId := none, metadata := [("userId", toString uid)] }] }) ∧
      (Permission.Public ∈ ps →
        ∀ (rc : Option ReqCtx),
          defaultChannelGuardCanActivate CtxType.graphql (some ps) rc dcid =
            { allowed := true, audits := [] }) ∧
      (c.activeUserId = none → Permission.Public ∉ ps →
        defaultChannelGuardCanActivate CtxType.graphql (some ps) (some c) dcid =
          { allowed := true, audits := [] }) := by
  intro ps c uid dcid
  refine ⟨?_, ?_, ?_⟩
  · intro hpub huid hchan hsa
    simp [defaultChannelGuardCanActivate, userHasPermissions, hpub, huid, hchan, hsa]
  · intro hpub rc
    simp [defaultChannelGuardCanActivate, hpub]
  · intro huid hpub
    simp [defaultChannelGuardCanActivate, huid, hpub]

/-- An authenticated non-SuperAdmin context bound to channel 1. -/
def intruderCtx : ReqCtx :=
  { apiType := ApiType.admin, channelId := 1, activeUserId := some 5,
    userPermissions := [Permission.Authenticated] }

/-- Witness for C8 with default channel id 1: the authenticated
non-SuperAdmin on the default channel is blocked and audited CRITICAL; a
Public operation passes; an unauthenticated context passes. -/
theorem C8_default_channel_guard_witness :
    defaultChannelGuardCanActivate CtxType.graphql (some [Permission.Authenticated])
        (some intruderCtx) 1 =
      { allowed := false,
        audits := [{ action := "DEFAULT_CHANNEL_ACCESS_BLOCKED", severity := "CRITICAL",
                     tenantId := none, metadata := [("userId", "5")] }] } ∧
    defaultChannelGuardCanActivate CtxType.graphql (some [Permission.Public])
        (some intruderCtx) 1 =
      { allowed := true, audits := [] } ∧
    defaultChannelGuardCanActivate CtxType.graphql (some [Permission.Authenticated])
        (some { intruderCtx with activeUserId := none }) 1 =
      { allowed := true, audits := [] } :=
  ⟨(C8_default_channel_guard [Permission.Authenticated] intruderCtx 5 1).1
      (by decide) rfl rfl (by decide),
   (C8_default_channel_guard [Permission.Public] intruderCtx 5 1).2.1 (by decide)
      (some intruderCtx),
   (C8_default_channel_guard [Permission.Authenticated]
      { intruderCtx with activeUserId := none } 5 1).2.2 rfl (by decide)⟩

/-- The resolution result of the alpha tenant's hostname. -/
def alphaRes : TenantResolutionResult :=
  { channelToken := "tenant-alpha-tok", tenantId := 1, tenantSlug := "alpha",
    tenantStatus := TenantStatus.ACTIVE }

/-- A request to the alpha tenant's hostname carrying the beta tenant's
isolation credential in the client-supplied header. -/
def forgedReq : MwRequest :=
  { host := some "alpha.example.com", xForwardedHost := none,
    vendureToken := some "tenant-beta-tok" }

/-- The same request without a client-supplied credential. -/
def cleanReq : MwRequest :=
  { host := some "alpha.example.com", xForwardedHost := none, vendureToken := none }

/-- A resolver under which every hostname resolves to the alpha tenant. -/
def alphaResolver : String → ResolveOutcome := fun _ => ResolveOutcome.ok alphaRes

/-- Counterexample to C1: on the alpha hostname with the beta token
supplied by the client, the middleware leaves the beta token in place (it
skips resolution entirely when the header is already set), so the final
header value is the client's, differs from the resolved credential, and
depends on the client-supplied value. No audit entry is written on any
path of the middleware (its outcome has no audit component to write). -/
theorem C1_counterexample :
    (middlewareUse forgedReq alphaResolver).vendureToken = some "tenant-beta-tok" ∧
    (middlewareUse forgedReq alphaResolver).vendureToken ≠ some alphaRes.channelToken ∧
    middlewareUse { forgedReq with vendureToken := none } alphaResolver ≠
      middlewareUse forgedReq alphaResolver := by
  refine ⟨by decide, by decide, by decide⟩

/-- C1 as amended: a truthy client-supplied vendure-token header suppresses
tenant resolution entirely — the middleware returns with the header equal
to the client value, no tenant metadata, and its outcome is independent of
what the resolver would have answered; only when no truthy client token is
present (and the domain is not bypassed) does a successful resolution set
the header to the resolved channel token and attach the metadata. The
middleware writes no audit entry on any path. -/
theorem C1_amended_thm :
    ∀ (req : MwRequest) (res res2 : String → ResolveOutcome),
      (truthy req.vendureToken = true →
        middlewareUse req res =
          { vendureToken := req.vendureToken, tenantMeta := none, action := MwAction.next } ∧
        middlewareUse req res = middlewareUse req res2) ∧
      (truthy req.vendureToken = false →
        skipDomains.contains (requestDomain req) = false →
        ∀ (r : TenantResolutionResult), res (requestDomain req) = ResolveOutcome.ok r →
          middlewareUse req res =
            { vendureToken := some r.channelToken,
              tenantMeta := some { id := r.tenantId, slug := r.tenantSlug,
                                   status := r.tenantStatus, channelToken := r.channelToken,
                                   channelId := none },
              action := MwAction.next }) := by
  intro req res res2
  constructor
  · intro ht
    constructor <;> simp [middlewareUse, ht]
  · intro ht hskip r hr
    have hskip2 : requestDomain req ∉ skipDomains := by simpa using hskip
    simp [middlewareUse, ht, hskip2, hr]

/-- Witness for C1 as amended: the forged request keeps the beta token
whatever the resolver says; the clean request gets the alpha token and the
metadata. -/
theorem C1_amended_witness :
    middlewareUse forgedReq alphaResolver =
      { vendureToken := some "tenant-beta-tok", tenantMeta := none, action := MwAction.next } ∧
    middlewareUse cleanReq alphaResolver =
      { vendureToken := some "tenant-alpha-tok",
        tenantMeta := some { id := 1, slug := "alpha", status := TenantStatus.ACTIVE,
                             channelToken := "tenant-alpha-tok", channelId := none },
        action := MwAction.next } :=
  ⟨((C1_amended_thm forgedReq alphaResolver alphaResolver).1 (by decide)).1,
   (C1_amended_thm cleanReq alphaResolver alphaResolver).2 (by decide) (by decide)
     alphaRes rfl⟩

/-- A request to a hostname bound to no tenant. -/
def ghostReq : MwRequest :=
  { host := some "ghost.example.com", xForwardedHost := none, vendureToken := none }

/-- A resolver under which no hostname resolves. -/
def notFoundResolver : String → ResolveOutcome := fun _ => ResolveOutcome.notFound

/-- Counterexample to C2: on a non-bypassed hostname that does not resolve,
the middleware calls next with the request unchanged — it does not reject
with 404, and the request proceeds with no bound credential. -/
theorem C2_counterexample :
    (middlewareUse ghostReq notFoundResolver).action = MwAction.next ∧
    (middlewareUse ghostReq notFoundResolver).action ≠ MwAction.reject 404 ∧
    middlewareUse ghostReq notFoundResolver =
      { vendureToken := none, tenantMeta := none, action := MwAction.next } := by
  refine ⟨by decide, by decide, by decide⟩

/-- C2 as amended: the middleware never rejects a request — every path
calls next — and on a NotFound resolution (no bypass, no client token) it
passes the request onward with the header and metadata unchanged, so the
request falls through to the platform default scope. -/
theorem C2_amended_thm :
    ∀ (req : MwRequest) (res : String → ResolveOutcome),
      (middlewareUse req res).action = MwAction.next ∧
      (truthy req.vendureToken = false →
        skipDomains.contains (requestDomain req) = false →
        res (requestDomain req) = ResolveOutcome.notFound →
        middlewareUse req res =
          { vendureToken := req.vendureToken, tenantMeta := none, action := MwAction.next }) := by
  intro req res
  constructor
  · unfold middlewareUse
    dsimp only
    split
    · rfl
    · split <;> rfl
  · intro ht hskip hr
    have hskip2 : requestDomain req ∉ skipDomains := by simpa using hskip
    simp [middlewareUse, ht, hskip2, hr]

/-- Witness for C2 as amended at the unresolvable hostname. -/
theorem C2_amended_witness :
    (middlewareUse ghostReq notFoundResolver).action = MwAction.next ∧
    middlewareUse ghostReq notFoundResolver =
      { vendureToken := none, tenantMeta := none, action := MwAction.next } :=
  ⟨(C2_amended_thm ghostReq notFoundResolver).1,
   (C2_amended_thm ghostReq notFoundResolver).2 (by decide) (by decide) rfl⟩

/-- The whole mutable state the lifecycle and resolution services share:
the tenant table, the TenantDomain rows, and the resolver cache. -/
structure SysState where
  tenants : List TenantEnt
  domains : List (String × Nat)
  cache : ResolverCache
deriving Repr

/-- TenantService.changeStatus acting on the whole system state: the tenant
table is updated as by changeStatus and the resolver cache is untouched —
tenant.service.ts holds no reference to TenantResolutionService and calls
neither invalidate nor invalidateAll. -/
def sysChangeStatus (now : Nat) (st : SysState) (id : Nat) (s : TenantStatus) :
    SysState × Except String TenantEnt × List TenantEvent :=
  let r := changeStatus now st.tenants id s
  ({ tenants := r.tenants, domains := st.domains, cache := st.cache }, r.result, r.events)

/-- The alpha tenant's domain rows. -/
def alphaDomains : List (String × Nat) := [("alpha.example.com", 1)]

/-- The directory join before any status change. -/
def db0 : List (String × TenantEnt) := directoryOf alphaDomains [alphaTenant]

/-- The cache as left by a resolve of the alpha hostname at time 0. -/
def cache0 : ResolverCache := (resolve 0 db0 [] "alpha.example.com").snd

/-- Suspending the alpha tenant at time 1000, starting from the state with
the warm cache. -/
def suspendStep : SysState × Except String TenantEnt × List TenantEvent :=
  sysChangeStatus 1000 { tenants := [alphaTenant], domains := alphaDomains, cache := cache0 }
    1 TenantStatus.SUSPENDED

/-- Counterexample to C4: the transition to SUSPENDED succeeds, yet the
resolver cache is exactly what it was — and a resolve of the tenant's
hostname at time 30000 (within the 60 s TTL of the entry written at time
0) still returns the pre-transition result carrying status ACTIVE and the
live channel token. -/
theorem C4_counterexample :
    suspendStep.snd.fst =
      Except.ok { alphaTenant with status := TenantStatus.SUSPENDED, suspendedAt := some 1000 } ∧
    suspendStep.fst.cache = cache0 ∧
    (resolve 30000 (directoryOf alphaDomains suspendStep.fst.tenants) suspendStep.fst.cache
        "alpha.example.com").fst =
      some { channelToken := "tenant-alpha-tok", tenantId := 1, tenantSlug := "alpha",
             tenantStatus := TenantStatus.ACTIVE } := by
  refine ⟨by decide, by decide, by decide⟩

/-- C4 as amended: changeStatus performs no resolver-cache invalidation at
all — the cache component of the system state is unchanged by every
status change, successful or not — and any cache entry still fresher than
its expiry keeps being served unchanged by resolve, whatever the directory
now says; the 60 s TTL is the only bound on this staleness. -/
theorem C4_amended_thm :
    (∀ (now : Nat) (st : SysState) (id : Nat) (s : TenantStatus),
      (sysChangeStatus now st id s).fst.cache = st.cache ∧
      (sysChangeStatus now st id s).fst.domains = st.domains) ∧
    (∀ (now2 : Nat) (db : List (String × TenantEnt)) (cache : ResolverCache)
        (d : String) (e : CacheEntry),
      cacheGet cache (normalizeDomain d) = some e → now2 < e.expiresAt →
      resolve now2 db cache d = (some e.result, cache)) := by
  constructor
  · intro now st id s
    exact ⟨rfl, rfl⟩
  · intro now2 db cache d e hget hlt
    simp only [resolve]
    rw [hget]
    simp [hlt]

/-- Witness for C4 as amended on the suspension scenario: the cache is
untouched by the suspension and the warm entry is still served at time
30000. -/
theorem C4_amended_witness :
    (sysChangeStatus 1000 { tenants := [alphaTenant], domains := alphaDomains, cache := cache0 }
        1 TenantStatus.SUSPENDED).fst.cache = cache0 ∧
    resolve 30000 [] cache0 "alpha.example.com" =
      (some { channelToken := "tenant-alpha-tok", tenantId := 1, tenantSlug := "alpha",
              tenantStatus := TenantStatus.ACTIVE }, cache0) :=
  ⟨((C4_amended_thm.1 1000
      { tenants := [alphaTenant], domains := alphaDomains, cache := cache0 }
      1 TenantStatus.SUSPENDED)).1,
   C4_amended_thm.2 30000 [] cache0 "alpha.example.com"
     { result := { channelToken := "tenant-alpha-tok", tenantId := 1, tenantSlug := "alpha",
                   tenantStatus := TenantStatus.ACTIVE }, expiresAt := 60000 }
     (by decide) (by decide)⟩

/-- The directory with the sus tenant's hostname bound to it. -/
def susDb : List (String × TenantEnt) := [("sus.example.com", susTenant)]

/-- A cache entry for the sus hostname that expired at time 5. -/
def staleEntry : CacheEntry :=
  { result := { channelToken := "tenant-sus-tok", tenantId := 3, tenantSlug := "sus",
                tenantStatus := TenantStatus.ACTIVE }, expiresAt := 5 }

/-- A cache holding only the expired sus entry. -/
def staleCache : ResolverCache := [("sus.example.com", staleEntry)]

/-- Counterexample to C9: resolving the suspended tenant's hostname on a
cold cache yields NotFound but writes nothing — the not-operational
decision is not cached; and starting from a cache holding an expired entry
for the hostname, the suspended-tenant resolve leaves the cache as it was
while the unbound-hostname resolve deletes the entry, so the two cache
effects differ. -/
theorem C9_counterexample :
    resolve 10 susDb [] "sus.example.com" = (none, []) ∧
    cacheGet (resolve 10 susDb [] "sus.example.com").snd "sus.example.com" = none ∧
    (resolve 10 susDb staleCache "sus.example.com").snd = staleCache ∧
    (resolve 10 [] staleCache "sus.example.com").snd = [] ∧
    (resolve 10 susDb staleCache "sus.example.com").snd ≠
      (resolve 10 [] staleCache "sus.example.com").snd := by
  refine ⟨by decide, by decide, by decide, by decide, by decide⟩

/-- C9 as amended: with no fresh cache entry for the hostname, a resolve of
a hostname bound to a non-operational tenant returns none with the cache
exactly unchanged (the decision is not cached, so the next resolve hits
the directory again), while a resolve of an unbound hostname returns none
and deletes any entry for the hostname; the returned value is identical in
the two cases, the cache effect is not. -/
theorem C9_amended_thm :
    ∀ (now : Nat) (db : List (String × TenantEnt)) (cache : ResolverCache) (d : String),
      (∀ (e : CacheEntry), cacheGet cache (normalizeDomain d) = some e → e.expiresAt ≤ now) →
      ((∀ (t : TenantEnt), dbLookup db (normalizeDomain d) = some t →
          t.status ≠ TenantStatus.TRIAL → t.status ≠ TenantStatus.ACTIVE →
          resolve now db cache d = (none, cache)) ∧
       (dbLookup db (normalizeDomain d) = none →
          resolve now db cache d = (none, cacheDelete cache (normalizeDomain d)))) := by
  intro now db cache d hstale
  have hfresh : resolve now db cache d = resolveFresh now db cache (normalizeDomain d) := by
    simp only [resolve]
    cases hc : cacheGet cache (normalizeDomain d) with
    | none => rfl
    | some e =>
      have hle := hstale e hc
      simp [Nat.not_lt.mpr hle]
  constructor
  · intro t ht h1 h2
    rw [hfresh]
    unfold resolveFresh
    rw [ht]
    simp [h1, h2]
  · intro hnone
    rw [hfresh]
    unfold resolveFresh
    rw [hnone]

/-- Witness for C9 as amended on a cold cache: the suspended-tenant
hostname and the unbound hostname both yield none; the former leaves the
empty cache empty, the latter performs the (vacuous) delete. -/
theorem C9_amended_witness :
    resolve 10 susDb [] "sus.example.com" = (none, []) ∧
    resolve 10 [] [] "sus.example.com" = (none, cacheDelete [] (normalizeDomain "sus.example.com")) :=
  ⟨(C9_amended_thm 10 susDb [] "sus.example.com"
      (by intro e he; simp [cacheGet] at he)).1 susTenant (by decide) (by decide) (by decide),
   (C9_amended_thm 10 [] [] "sus.example.com"
      (by intro e he; simp [cacheGet] at he)).2 (by decide)⟩

/-- An authenticated SuperAdmin context bound to the alpha tenant's
channel 10. -/
def alphaScopedCtx : ReqCtx :=
  { apiType := ApiType.admin, channelId := 10, activeUserId := some 42,
    userPermissions := [Permission.SuperAdmin] }

/-- The tenant rows (entity plus config document) of the two tenants. -/
def twoTenantRows : List TenantRow :=
  [{ ent := alphaTenant, config := [] }, { ent := betaTenant, config := [] }]

/-- Counterexample to C5: the admin tenant-by-id query, issued by a caller
scoped to channel 10, returns the beta tenant although it belongs to
channel 20 — the lookup succeeds instead of failing with not-found; and
the self-service updateMyTenant, issued from a channel with no tenant,
fails with the forbidden error, which C5 says is never used. -/
theorem C5_counterexample :
    adminTenantQuery alphaScopedCtx [alphaTenant, betaTenant] 2 = some betaTenant ∧
    betaTenant.channelId ≠ alphaScopedCtx.channelId ∧
    adminTenantQuery alphaScopedCtx [alphaTenant, betaTenant] 2 ≠ none ∧
    updateMyTenant { alphaScopedCtx with channelId := 30 } twoTenantRows (some "X") none =
      Except.error ResolverError.forbidden := by
  refine ⟨by decide, by decide, by decide, by decide⟩

/-- C5 as amended: these operations perform no entity-scope verification.
The admin tenant-by-id query is a plain findById whose answer is
independent of the caller's data scope (it relies solely on the SuperAdmin
permission gate), and the self-service updateMyTenant resolves the tenant
from the caller's own channel and throws ForbiddenError — not a not-found
error — whenever that channel has no tenant. -/
theorem C5_amended_thm :
    (∀ (c1 c2 : ReqCtx) (tenants : List TenantEnt) (id : Nat),
      adminTenantQuery c1 tenants id = findById tenants id ∧
      adminTenantQuery c1 tenants id = adminTenantQuery c2 tenants id) ∧
    (∀ (ctx : ReqCtx) (tenants : List TenantRow) (nm : Option String)
        (cfg : Option (List (String × String))),
      tenants.find? (fun t => t.ent.channelId == ctx.channelId) = none →
      updateMyTenant ctx tenants nm cfg = Except.error ResolverError.forbidden) := by
  constructor
  · intro c1 c2 tenants id
    exact ⟨rfl, rfl⟩
  · intro ctx tenants nm cfg hnone
    unfold updateMyTenant
    rw [hnone]

/-- Witness for C5 as amended: the cross-scope admin query equals the bare
findById, and the tenant-less channel 30 gets ForbiddenError from
updateMyTenant. -/
theorem C5_amended_witness :
    adminTenantQuery alphaScopedCtx [alphaTenant, betaTenant] 2 =
      findById [alphaTenant, betaTenant] 2 ∧
    updateMyTenant { alphaScopedCtx with channelId := 30 } twoTenantRows (some "X") none =
      Except.error ResolverError.forbidden :=
  ⟨(C5_amended_thm.1 alphaScopedCtx alphaScopedCtx [alphaTenant, betaTenant] 2).1,
   C5_amended_thm.2 { alphaScopedCtx with channelId := 30 } twoTenantRows (some "X") none
     (by decide)⟩

end QTable
